import Mathlib

/-!
Shallow embedding of the `build` subcommand of the landscape2 repository
(`src/build/mod.rs`, `src/validate/mod.rs`).  Pure control flow is embedded
as Lean functions; the effects of the outside world (network fetches, disk
writes, CPU count, embedded assets) are supplied by explicit environment
records, so every definition is executable on concrete inputs.
-/

namespace Landscape2

/-- Path where the datasets will be written to in the output directory
(`DATASETS_PATH` in `build/mod.rs`). -/
def DATASETS_PATH : String := "data"

/-- Path where some documents will be written to in the output directory
(`DOCS_PATH` in `build/mod.rs`). -/
def DOCS_PATH : String := "docs"

/-- Path where some images will be written to in the output directory
(`IMAGES_PATH` in `build/mod.rs`). -/
def IMAGES_PATH : String := "images"

/-- Path where the item logos will be written to in the output directory
(`LOGOS_PATH` in `build/mod.rs`). -/
def LOGOS_PATH : String := "logos"

/-- Maximum number of logos to prepare concurrently
(`PREPARE_LOGOS_MAX_CONCURRENCY` in `build/mod.rs`). -/
def PREPARE_LOGOS_MAX_CONCURRENCY : Nat := 20

/-- Record of one external enrichment result for a Crunchbase reference.
Modelled from the spec: `CollectedRecord` of the Crunchbase collector
(module `build/crunchbase.rs` is not under `src/`); the fields are opaque
to the orchestration logic verified here. -/
structure CBRecord where
  fields : String
deriving Repr, DecidableEq, BEq

/-- Record of one external enrichment result for a GitHub repository
reference.  Modelled from the spec: `CollectedRecord` of the GitHub
collector (module `build/github.rs` is not under `src/`). -/
structure GHRecord where
  fields : String
deriving Repr, DecidableEq, BEq

/-- A landscape item.  Modelled from the spec: the `Item` struct lives in
`build/data.rs`, which is not under `src/`; per the spec it carries a
stable opaque identity (`Uuid`, modelled as `Nat`), a logo reference,
optional external references, category placement, display fields, and the
enrichment fields attached by the merge steps. -/
structure Item where
  id : Nat
  name : String
  logo : String
  category : String
  subcategory : String
  crunchbase_url : Option String
  repo_url : Option String
  crunchbase_data : Option CBRecord
  github_data : Option GHRecord
deriving Repr, DecidableEq, BEq

/-- The logo returned by `prepare_logo` (module `build/logos.rs`, not under
`src/`): a content digest and the normalized SVG bytes.  Only these two
fields are consumed by `prepare_items_logos`. -/
structure Logo where
  digest : String
  svg_data : String
deriving Repr, DecidableEq, BEq

/-- Outcome of `tokio::spawn(prepare_logo(..)).await` for one item, as
matched in `prepare_items_logos`: the join handle itself can fail
(`Err(join_err)`), the task can return `Ok(Err(e))`, or it returns the
prepared logo (`Ok(Ok(logo))`). -/
inductive SpawnOutcome where
  | joinError
  | prepareError
  | ok (logo : Logo)
deriving Repr, DecidableEq, BEq

/-- Environment of the logo fan-out: the outcome of the spawned
`prepare_logo` task for each item, and the success of `File::create` and
`write_all` for each output file name. -/
structure LogoEnv where
  spawnOutcome : Item → SpawnOutcome
  createLogoFileOk : String → Bool
  writeLogoOk : String → Bool

/-- Errors surfaced by the `build` subcommand (each variant marks which
fallible step produced the `anyhow` error). -/
inductive BuildErr where
  | webAssetsNotFound
  | createDirError
  | cacheError
  | dataLoadError
  | settingsLoadError
  | featuredDataError
  | imagesError
  | guideError
  | datasetsError
  | renderError
  | copyAssetsError
  | itemsCsvError
  | projectsError
deriving Repr, DecidableEq, BEq

/-- The body of the closure mapped over items in `prepare_items_logos`
(`build/mod.rs:310-343`): on a failed spawn or a failed `prepare_logo` the
result for the item is `(item.id, None)`; on success the logo is written to
`logos/<digest>.svg` — a failed `File::create` yields `(item.id, None)`,
while a failed `write_all` is only logged and the result is still
`(item.id, Some("logos/<digest>.svg"))`. -/
def itemLogoResult (env : LogoEnv) (item : Item) : Nat × Option String :=
  match env.spawnOutcome item with
  | .joinError => (item.id, none)
  | .prepareError => (item.id, none)
  | .ok logo =>
    let file_name := logo.digest ++ ".svg"
    if env.createLogoFileOk file_name then
      -- a `write_all` error is logged but does not change the result
      let _ := env.writeLogoOk file_name
      (item.id, some (LOGOS_PATH ++ "/" ++ file_name))
    else
      (item.id, none)

/-- The keyed result list collected from the logo fan-out
(`HashMap<Uuid, Option<String>>` in the source, here an association list in
item order; completion order is irrelevant because lookups are by key). -/
def logosList (env : LogoEnv) (items : List Item) : List (Nat × Option String) :=
  items.map (itemLogoResult env)

/-- `HashMap::get` on the collected logo results: the first entry whose key
equals the requested id, if any. -/
def lookupLogo (logos : List (Nat × Option String)) (id : Nat) :
    Option (Option String) :=
  match logos with
  | [] => none
  | (k, v) :: rest => if k = id then some v else lookupLogo rest id

/-- The single-threaded merge loop of `prepare_items_logos`
(`build/mod.rs:349-355`): each item's logo becomes the looked-up
`Some(Some(logo))` value, and the empty string otherwise. -/
def updateItemsLogos (logos : List (Nat × Option String)) (items : List Item) :
    List Item :=
  items.map fun item =>
    { item with
      logo :=
        match lookupLogo logos item.id with
        | some (some l) => l
        | _ => "" }

/-- `prepare_items_logos` (`build/mod.rs:294-358`): run the fan-out over the
items, then merge the keyed results back into the items.  The function body
has no `?` operator after the fan-out, so it always returns `Ok(())`. -/
def prepare_items_logos (env : LogoEnv) (items : List Item) :
    Except BuildErr (List Item) :=
  .ok (updateItemsLogos (logosList env items) items)

/-- The resolved logo an item ends up with, as a function of the
environment and that item alone (valid whenever item ids are unique). -/
def resolvedLogo (env : LogoEnv) (it : Item) : String :=
  match (itemLogoResult env it).2 with
  | some l => l
  | none => ""

/-- The concurrency limit computed at `build/mod.rs:303-306`:
`num_cpus::get()` capped at `PREPARE_LOGOS_MAX_CONCURRENCY`. -/
def prepareLogosConcurrency (numCpus : Nat) : Nat :=
  if numCpus > PREPARE_LOGOS_MAX_CONCURRENCY then
    PREPARE_LOGOS_MAX_CONCURRENCY
  else
    numCpus

theorem itemLogoResult_fst (env : LogoEnv) (it : Item) :
    (itemLogoResult env it).1 = it.id := by
  unfold itemLogoResult
  split <;> first | rfl | (dsimp only []; split <;> rfl)

theorem lookupLogo_logosList (env : LogoEnv) :
    ∀ (items : List Item), (items.map Item.id).Nodup →
      ∀ it ∈ items,
        lookupLogo (logosList env items) it.id = some (itemLogoResult env it).2 := by
  intro items
  induction items with
  | nil => intro _ it hit; cases hit
  | cons hd tl ih =>
    intro hnd it hit
    have hnd' : (tl.map Item.id).Nodup := (List.nodup_cons.mp hnd).2
    have hhd : hd.id ∉ tl.map Item.id := (List.nodup_cons.mp hnd).1
    cases hit with
    | head =>
      show lookupLogo (itemLogoResult env hd :: logosList env tl) hd.id = _
      rw [show itemLogoResult env hd
            = ((itemLogoResult env hd).1, (itemLogoResult env hd).2) from rfl]
      unfold lookupLogo
      rw [itemLogoResult_fst]
      simp
    | tail _ hmem =>
      show lookupLogo (itemLogoResult env hd :: logosList env tl) it.id = _
      rw [show itemLogoResult env hd
            = ((itemLogoResult env hd).1, (itemLogoResult env hd).2) from rfl]
      unfold lookupLogo
      rw [itemLogoResult_fst]
      have hne : hd.id ≠ it.id := by
        intro h
        exact hhd (h ▸ List.mem_map_of_mem Item.id hmem)
      simp only [hne, if_false]
      exact ih hnd' it hmem

theorem updateItemsLogos_getElem (env : LogoEnv) (items : List Item)
    (hnd : (items.map Item.id).Nodup) (j : Nat) (jt : Item)
    (hj : items[j]? = some jt) :
    (updateItemsLogos (logosList env items) items)[j]?
      = some { jt with logo := resolvedLogo env jt } := by
  have hmem : jt ∈ items := List.getElem?_mem hj
  have hlook := lookupLogo_logosList env items hnd jt hmem
  unfold updateItemsLogos
  rw [List.getElem?_map, hj]
  simp only [Option.map_some']
  rw [hlook]
  unfold resolvedLogo
  cases h2 : (itemLogoResult env jt).2 <;> rfl

theorem resolvedLogo_of_fail (env : LogoEnv) (it : Item)
    (h : env.spawnOutcome it = .joinError ∨ env.spawnOutcome it = .prepareError) :
    resolvedLogo env it = "" := by
  unfold resolvedLogo itemLogoResult
  rcases h with h | h <;> rw [h]

theorem resolvedLogo_of_ok (env : LogoEnv) (it : Item) (logo : Logo)
    (hok : env.spawnOutcome it = .ok logo)
    (hcr : env.createLogoFileOk (logo.digest ++ ".svg") = true) :
    resolvedLogo env it = LOGOS_PATH ++ "/" ++ logo.digest ++ ".svg" := by
  unfold resolvedLogo itemLogoResult
  rw [hok]
  simp [hcr, String.append_assoc]

/-- A concrete item used to exercise the definitions on closed inputs. -/
def mkItem (id : Nat) (logo : String) : Item :=
  { id := id, name := "n", logo := logo, category := "c", subcategory := "s",
    crunchbase_url := none, repo_url := none, crunchbase_data := none,
    github_data := none }

/-- A concrete item list used to exercise the definitions on closed inputs. -/
def sampleItems : List Item := [mkItem 1 "l1", mkItem 2 "l2", mkItem 3 "l3"]

/-- A concrete logo environment: the item with id 2 fails `prepare_logo`,
all other items produce the logo with digest `d`; all file writes succeed. -/
def sampleLogoEnv : LogoEnv where
  spawnOutcome := fun it => if it.id = 2 then .prepareError else .ok ⟨"d", "s"⟩
  createLogoFileOk := fun _ => true
  writeLogoOk := fun _ => true

/-- A concrete logo environment whose `write_all` always fails while
`prepare_logo` and `File::create` succeed. -/
def envWriteFail : LogoEnv where
  spawnOutcome := fun _ => .ok ⟨"d", "s"⟩
  createLogoFileOk := fun _ => true
  writeLogoOk := fun _ => false

/-- Claim C1: `prepare_items_logos` returns `Ok` and the merge step only rewrites
each item's `logo` field in place: the item at every position `j` keeps its
identity and all non-logo fields, so the sequence of item identities (hence
the set, with no addition, drop or duplication) is unchanged. -/
theorem prepare_items_logos_preserves_items (env : LogoEnv) (items : List Item)
    (j : Nat) (jt : Item) (hj : items[j]? = some jt) :
    prepare_items_logos env items
        = .ok (updateItemsLogos (logosList env items) items) ∧
    (updateItemsLogos (logosList env items) items).map Item.id
        = items.map Item.id ∧
    (updateItemsLogos (logosList env items) items)[j]?
        = some { jt with
                 logo :=
                   match lookupLogo (logosList env items) jt.id with
                   | some (some l) => l
                   | _ => "" } := by
  refine ⟨rfl, ?_, ?_⟩
  · unfold updateItemsLogos
    rw [List.map_map]
    rfl
  · unfold updateItemsLogos
    rw [List.getElem?_map, hj]
    rfl

theorem prepare_items_logos_preserves_items_witness :
    prepare_items_logos sampleLogoEnv sampleItems
        = .ok (updateItemsLogos (logosList sampleLogoEnv sampleItems) sampleItems) ∧
    (updateItemsLogos (logosList sampleLogoEnv sampleItems) sampleItems).map Item.id
        = sampleItems.map Item.id ∧
    (updateItemsLogos (logosList sampleLogoEnv sampleItems) sampleItems)[0]?
        = some { mkItem 1 "l1" with
                 logo :=
                   match lookupLogo (logosList sampleLogoEnv sampleItems)
                       (mkItem 1 "l1").id with
                   | some (some l) => l
                   | _ => "" } :=
  prepare_items_logos_preserves_items sampleLogoEnv sampleItems 0
    (mkItem 1 "l1") rfl

/-- Claim C9: the merge loop is a total function: it always produces a list of
the same length, and an item whose id is missing from the result map, or
mapped to `None`, gets the empty string as its logo. -/
theorem updateItemsLogos_total (logos : List (Nat × Option String))
    (items : List Item) (j : Nat) (jt : Item) (hj : items[j]? = some jt)
    (h : lookupLogo logos jt.id = none ∨ lookupLogo logos jt.id = some none) :
    (updateItemsLogos logos items).length = items.length ∧
    (updateItemsLogos logos items)[j]? = some { jt with logo := "" } := by
  constructor
  · exact List.length_map items _
  · unfold updateItemsLogos
    rw [List.getElem?_map, hj]
    rcases h with h | h <;> simp [h]

theorem updateItemsLogos_total_witness :
    (updateItemsLogos [(9, some "x"), (7, none)] [mkItem 1 "a"]).length
        = [mkItem 1 "a"].length ∧
    (updateItemsLogos [(9, some "x"), (7, none)] [mkItem 1 "a"])[0]?
        = some { mkItem 1 "a" with logo := "" } :=
  updateItemsLogos_total [(9, some "x"), (7, none)] [mkItem 1 "a"] 0
    (mkItem 1 "a") rfl (Or.inl (by decide))

/-- Claim C2: when the spawned `prepare_logo` task for an item fails (either the
join fails or `prepare_logo` returns an error), `prepare_items_logos` still
returns `Ok`, that item ends with the empty string as its logo, and every
other item's final logo is `resolvedLogo env` of that item alone — a value
that only depends on the environment's outcome for that item, so it is
unaffected by the failing item (last conjunct). -/
theorem prepare_items_logos_isolates_failures (env env' : LogoEnv)
    (items : List Item) (hnd : (items.map Item.id).Nodup) (i : Nat) (it : Item)
    (hi : items[i]? = some it)
    (hfail : env.spawnOutcome it = .joinError ∨
      env.spawnOutcome it = .prepareError) :
    prepare_items_logos env items
        = .ok (updateItemsLogos (logosList env items) items) ∧
    (updateItemsLogos (logosList env items) items)[i]?
        = some { it with logo := "" } ∧
    (∀ (j : Nat) (jt : Item), items[j]? = some jt →
      (updateItemsLogos (logosList env items) items)[j]?
        = some { jt with logo := resolvedLogo env jt }) ∧
    (∀ jt : Item, env'.spawnOutcome jt = env.spawnOutcome jt →
      (∀ s, env'.createLogoFileOk s = env.createLogoFileOk s) →
      resolvedLogo env' jt = resolvedLogo env jt) := by
  refine ⟨rfl, ?_, ?_, ?_⟩
  · rw [updateItemsLogos_getElem env items hnd i it hi,
      resolvedLogo_of_fail env it hfail]
  · intro j jt hj
    exact updateItemsLogos_getElem env items hnd j jt hj
  · intro jt hs hc
    unfold resolvedLogo itemLogoResult
    rw [hs]
    cases env.spawnOutcome jt <;> simp [hc]

theorem prepare_items_logos_isolates_failures_witness :
    prepare_items_logos sampleLogoEnv sampleItems
        = .ok (updateItemsLogos (logosList sampleLogoEnv sampleItems) sampleItems) ∧
    (updateItemsLogos (logosList sampleLogoEnv sampleItems) sampleItems)[1]?
        = some { mkItem 2 "l2" with logo := "" } ∧
    (updateItemsLogos (logosList sampleLogoEnv sampleItems) sampleItems)[0]?
        = some { mkItem 1 "l1" with
                 logo := resolvedLogo sampleLogoEnv (mkItem 1 "l1") } ∧
    resolvedLogo sampleLogoEnv (mkItem 3 "l3")
        = resolvedLogo sampleLogoEnv (mkItem 3 "l3") := by
  have h := prepare_items_logos_isolates_failures sampleLogoEnv sampleLogoEnv
    sampleItems (by decide) 1 (mkItem 2 "l2") rfl (Or.inr (by decide))
  exact ⟨h.1, h.2.1, h.2.2.1 0 (mkItem 1 "l1") rfl,
    h.2.2.2 (mkItem 3 "l3") rfl (fun _ => rfl)⟩

/-- Claim C5: an item whose logo preparation succeeds (task returns a logo and the
output file is created) resolves to exactly `logos/<digest>.svg`, and any
other succeeding item whose logo has the same digest resolves to the same
output path. -/
theorem prepare_items_logos_success_digest_path (env : LogoEnv)
    (items : List Item) (hnd : (items.map Item.id).Nodup) (i : Nat) (it : Item)
    (logo : Logo) (hi : items[i]? = some it)
    (hok : env.spawnOutcome it = .ok logo)
    (hcr : env.createLogoFileOk (logo.digest ++ ".svg") = true) :
    (updateItemsLogos (logosList env items) items)[i]?
        = some { it with logo := LOGOS_PATH ++ "/" ++ logo.digest ++ ".svg" } ∧
    (∀ (j : Nat) (jt : Item) (logo' : Logo), items[j]? = some jt →
      env.spawnOutcome jt = .ok logo' →
      env.createLogoFileOk (logo'.digest ++ ".svg") = true →
      logo'.digest = logo.digest →
      (updateItemsLogos (logosList env items) items)[j]?
        = some { jt with
                 logo := LOGOS_PATH ++ "/" ++ logo.digest ++ ".svg" }) := by
  constructor
  · rw [updateItemsLogos_getElem env items hnd i it hi,
      resolvedLogo_of_ok env it logo hok hcr]
  · intro j jt logo' hj hok' hcr' hdig
    rw [updateItemsLogos_getElem env items hnd j jt hj,
      resolvedLogo_of_ok env jt logo' hok' hcr', hdig]

theorem prepare_items_logos_success_digest_path_witness :
    (updateItemsLogos (logosList sampleLogoEnv sampleItems) sampleItems)[0]?
        = some { mkItem 1 "l1" with
                 logo := LOGOS_PATH ++ "/" ++ "d" ++ ".svg" } ∧
    (updateItemsLogos (logosList sampleLogoEnv sampleItems) sampleItems)[2]?
        = some { mkItem 3 "l3" with
                 logo := LOGOS_PATH ++ "/" ++ "d" ++ ".svg" } := by
  have h := prepare_items_logos_success_digest_path sampleLogoEnv sampleItems
    (by decide) 0 (mkItem 1 "l1") ⟨"d", "s"⟩ rfl (by decide) rfl
  exact ⟨h.1, h.2 2 (mkItem 3 "l3") ⟨"d", "s"⟩ rfl (by decide) rfl rfl⟩

/-- Claim C3, counterexample: with an environment where `write_all` fails while
the task and `File::create` succeed, the item's resolved logo is still the
logo path `logos/d.svg`, not the empty marker: a failed `write_all` is only
logged (`build/mod.rs:338-340`) and does not empty the item's logo. -/
theorem logo_write_error_still_sets_path :
    envWriteFail.writeLogoOk "d.svg" = false ∧
    prepare_items_logos envWriteFail [mkItem 1 "old"]
        = .ok [{ mkItem 1 "old" with logo := "logos/d.svg" }] ∧
    ("logos/d.svg" : String) ≠ "" :=
  ⟨rfl, rfl, by decide⟩

/-- Claim C3, amended: on a failed spawn, a failed `prepare_logo`, or a failed
`File::create` of the output file, the item's fan-out result is `None`
(hence the empty logo marker after the merge); but a failed `write_all` is
only logged — when the task and `File::create` succeed the result is the
logo path `logos/<digest>.svg` regardless of the `write_all` outcome. -/
theorem logo_failure_marks_empty_except_write (env : LogoEnv) (it : Item) :
    ((env.spawnOutcome it = .joinError ∨ env.spawnOutcome it = .prepareError) →
      (itemLogoResult env it).2 = none) ∧
    (∀ logo : Logo, env.spawnOutcome it = .ok logo →
      env.createLogoFileOk (logo.digest ++ ".svg") = false →
      (itemLogoResult env it).2 = none) ∧
    (∀ logo : Logo, env.spawnOutcome it = .ok logo →
      env.createLogoFileOk (logo.digest ++ ".svg") = true →
      (itemLogoResult env it).2
        = some (LOGOS_PATH ++ "/" ++ logo.digest ++ ".svg")) := by
  refine ⟨?_, ?_, ?_⟩
  · intro h
    unfold itemLogoResult
    rcases h with h | h <;> rw [h]
  · intro logo hok hcr
    unfold itemLogoResult
    rw [hok]
    simp [hcr]
  · intro logo hok hcr
    unfold itemLogoResult
    rw [hok]
    simp [hcr, String.append_assoc]

theorem logo_failure_marks_empty_except_write_witness :
    (itemLogoResult sampleLogoEnv (mkItem 2 "l2")).2 = none ∧
    (itemLogoResult envWriteFail (mkItem 1 "old")).2
        = some (LOGOS_PATH ++ "/" ++ "d" ++ ".svg") := by
  refine ⟨(logo_failure_marks_empty_except_write sampleLogoEnv
    (mkItem 2 "l2")).1 (Or.inr (by decide)), ?_⟩
  exact (logo_failure_marks_empty_except_write envWriteFail
    (mkItem 1 "old")).2.2 ⟨"d", "s"⟩ rfl rfl

/-- State of the `buffer_unordered(concurrency)` executor driving the logo
fan-out: tasks not yet started, tasks currently in flight, and finished
tasks (tasks are identified by their index in the input stream). -/
structure ExecState where
  pending : List Nat
  inflight : List Nat
  finished : List Nat
deriving Repr, DecidableEq, BEq

/-- Small-step semantics of `buffer_unordered(limit)`: the executor may
start the next pending task only while fewer than `limit` tasks are in
flight, and may retire any in-flight task. -/
inductive BufferStep (limit : Nat) : ExecState → ExecState → Prop
  | start (t : Nat) (rest fl fin : List Nat) :
      fl.length < limit →
      BufferStep limit ⟨t :: rest, fl, fin⟩ ⟨rest, t :: fl, fin⟩
  | finish (p fl fin : List Nat) (t : Nat) :
      t ∈ fl →
      BufferStep limit ⟨p, fl, fin⟩ ⟨p, fl.erase t, t :: fin⟩

/-- Initial executor state: all tasks pending, none started. -/
def initState (tasks : List Nat) : ExecState := ⟨tasks, [], []⟩

/-- The states the `buffer_unordered(limit)` executor can reach from the
initial state for the given tasks. -/
def ExecReachable (limit : Nat) (tasks : List Nat) (s : ExecState) : Prop :=
  Relation.ReflTransGen (BufferStep limit) (initState tasks) s

theorem bufferStep_inflight_le (limit : Nat) (s s' : ExecState)
    (hstep : BufferStep limit s s') (hs : s.inflight.length ≤ limit) :
    s'.inflight.length ≤ limit := by
  cases hstep with
  | start t rest fl fin hlt => exact hlt
  | finish p fl fin t ht =>
    calc (fl.erase t).length ≤ fl.length := List.length_erase_le t fl
    _ ≤ limit := hs

theorem prepareLogosConcurrency_eq_min (numCpus : Nat) :
    prepareLogosConcurrency numCpus = min numCpus 20 := by
  unfold prepareLogosConcurrency PREPARE_LOGOS_MAX_CONCURRENCY
  split <;> omega

/-- Claim C4: in every state the logo fan-out executor can reach, the number of
in-flight `prepare_logo` tasks is at most `K = min(num_cpus, 20)` — the
concurrency limit computed at `build/mod.rs:303-306` and passed to
`buffer_unordered` at `build/mod.rs:344`. -/
theorem prepare_logos_concurrency_bounded (numCpus : Nat) (tasks : List Nat)
    (s : ExecState)
    (hreach : ExecReachable (prepareLogosConcurrency numCpus) tasks s) :
    s.inflight.length ≤ min numCpus 20 := by
  rw [← prepareLogosConcurrency_eq_min]
  induction hreach with
  | refl => exact Nat.zero_le _
  | tail _ hstep ih => exact bufferStep_inflight_le _ _ _ hstep ih

theorem prepare_logos_concurrency_bounded_witness :
    (initState [0, 1, 2]).inflight.length ≤ min 4 20 :=
  prepare_logos_concurrency_bounded 4 [0, 1, 2] (initState [0, 1, 2])
    Relation.ReflTransGen.refl

/-- The build filesystem as seen by `setup_output_dir`: the set of existing
paths (a path "exists" exactly when it is in `dirs`). -/
structure FileSys where
  dirs : List String
deriving Repr, DecidableEq, BEq

/-- One `if !path.exists() { fs::create_dir(path)? }` step of
`setup_output_dir`, threading the filesystem and the log of directories
actually created; `ok` tells whether `create_dir` succeeds on a path. -/
def ensureDir (ok : String → Bool) (st : FileSys × List String)
    (path : String) : Except BuildErr (FileSys × List String) :=
  if path ∈ st.1.dirs then .ok st
  else if ok path then .ok (⟨path :: st.1.dirs⟩, st.2 ++ [path])
  else .error .createDirError

/-- `setup_output_dir` (`build/mod.rs:382-411`): create the output
directory and the `data`, `docs`, `images` and `logos` subdirectories, each
only when it does not already exist. -/
def setup_output_dir (ok : String → Bool) (fs : FileSys) (out : String) :
    Except BuildErr (FileSys × List String) := do
  let st ← ensureDir ok (fs, []) out
  let st ← ensureDir ok st (out ++ "/" ++ DATASETS_PATH)
  let st ← ensureDir ok st (out ++ "/" ++ DOCS_PATH)
  let st ← ensureDir ok st (out ++ "/" ++ IMAGES_PATH)
  let st ← ensureDir ok st (out ++ "/" ++ LOGOS_PATH)
  return st

theorem ensureDir_ok_spec (ok : String → Bool) (st st' : FileSys × List String)
    (path : String) (h : ensureDir ok st path = .ok st') :
    path ∈ st'.1.dirs ∧
    (∀ q, q ∈ st.1.dirs → q ∈ st'.1.dirs) ∧
    (∀ q, q ∈ st'.2 → q ∈ st.2 ∨ (q = path ∧ q ∉ st.1.dirs)) := by
  unfold ensureDir at h
  split at h
  · cases h
    refine ⟨by assumption, fun q hq => hq, fun q hq => Or.inl hq⟩
  · split at h
    · cases h
      refine ⟨List.mem_cons_self _ _, fun q hq => List.mem_cons_of_mem _ hq,
        fun q hq => ?_⟩
      rcases List.mem_append.mp hq with hq | hq
      · exact Or.inl hq
      · rcases List.mem_singleton.mp hq with rfl
        exact Or.inr ⟨rfl, by assumption⟩
    · cases h

theorem ensureDir_of_mem (ok : String → Bool) (st : FileSys × List String)
    (path : String) (h : path ∈ st.1.dirs) :
    ensureDir ok st path = .ok st := by
  unfold ensureDir
  simp [h]

theorem ensureDir_preserves (ok : String → Bool) (base : List String)
    (st st' : FileSys × List String) (path : String)
    (h : ensureDir ok st path = .ok st')
    (hP : (∀ q ∈ base, q ∈ st.1.dirs) ∧ ∀ q ∈ st.2, q ∉ base) :
    (∀ q ∈ base, q ∈ st'.1.dirs) ∧ ∀ q ∈ st'.2, q ∉ base := by
  obtain ⟨_, hmono, hlog⟩ := ensureDir_ok_spec ok st st' path h
  refine ⟨fun q hq => hmono q (hP.1 q hq), fun q hq => ?_⟩
  rcases hlog q hq with hq' | ⟨rfl, hnew⟩
  · exact hP.2 q hq'
  · exact fun hc => hnew (hP.1 q hc)

/-- Claim C10: when `setup_output_dir` succeeds, the output directory and each of
the four subdirectories (`data`, `docs`, `images`, `logos`) exist
afterwards; every directory it created did not exist beforehand; and a
second call on the already-prepared filesystem succeeds creating
nothing. -/
theorem setup_output_dir_idempotent (ok : String → Bool) (fs : FileSys)
    (out : String) (fs' : FileSys) (log : List String)
    (h : setup_output_dir ok fs out = .ok (fs', log)) :
    out ∈ fs'.dirs ∧
    (out ++ "/" ++ DATASETS_PATH) ∈ fs'.dirs ∧
    (out ++ "/" ++ DOCS_PATH) ∈ fs'.dirs ∧
    (out ++ "/" ++ IMAGES_PATH) ∈ fs'.dirs ∧
    (out ++ "/" ++ LOGOS_PATH) ∈ fs'.dirs ∧
    (∀ p, p ∈ log → p ∉ fs.dirs) ∧
    setup_output_dir ok fs' out = .ok (fs', []) := by
  unfold setup_output_dir at h
  simp only [bind, Except.bind, pure, Except.pure] at h
  split at h
  · exact absurd h (by simp)
  rename_i st1 h1
  split at h
  · exact absurd h (by simp)
  rename_i st2 h2
  split at h
  · exact absurd h (by simp)
  rename_i st3 h3
  split at h
  · exact absurd h (by simp)
  rename_i st4 h4
  split at h
  · exact absurd h (by simp)
  rename_i st5 h5
  injection h with h6
  subst h6
  obtain ⟨hg1, hm1, _⟩ := ensureDir_ok_spec ok (fs, []) st1 out h1
  obtain ⟨hg2, hm2, _⟩ := ensureDir_ok_spec ok st1 _ _ h2
  obtain ⟨hg3, hm3, _⟩ := ensureDir_ok_spec ok st2 _ _ h3
  obtain ⟨hg4, hm4, _⟩ := ensureDir_ok_spec ok st3 _ _ h4
  obtain ⟨hg5, hm5, _⟩ := ensureDir_ok_spec ok st4 _ _ h5
  have e1 : out ∈ (fs', log).1.dirs :=
    hm5 _ (hm4 _ (hm3 _ (hm2 _ hg1)))
  have e2 : (out ++ "/" ++ DATASETS_PATH) ∈ (fs', log).1.dirs :=
    hm5 _ (hm4 _ (hm3 _ hg2))
  have e3 : (out ++ "/" ++ DOCS_PATH) ∈ (fs', log).1.dirs :=
    hm5 _ (hm4 _ hg3)
  have e4 : (out ++ "/" ++ IMAGES_PATH) ∈ (fs', log).1.dirs :=
    hm5 _ hg4
  have e5 : (out ++ "/" ++ LOGOS_PATH) ∈ (fs', log).1.dirs := hg5
  have hbase0 : (∀ q ∈ fs.dirs, q ∈ (fs, ([] : List String)).1.dirs) ∧
      ∀ q ∈ (fs, ([] : List String)).2, q ∉ fs.dirs :=
    ⟨fun q hq => hq, fun q hq => absurd hq (List.not_mem_nil q)⟩
  have hlog5 := ensureDir_preserves ok fs.dirs _ _ _ h5
    (ensureDir_preserves ok fs.dirs _ _ _ h4
      (ensureDir_preserves ok fs.dirs _ _ _ h3
        (ensureDir_preserves ok fs.dirs _ _ _ h2
          (ensureDir_preserves ok fs.dirs _ _ _ h1 hbase0))))
  refine ⟨e1, e2, e3, e4, e5, fun p hp => hlog5.2 p hp, ?_⟩
  unfold setup_output_dir
  simp only [bind, Except.bind, pure, Except.pure,
    ensureDir_of_mem ok (fs', []) out e1,
    ensureDir_of_mem ok (fs', []) _ e2,
    ensureDir_of_mem ok (fs', []) _ e3,
    ensureDir_of_mem ok (fs', []) _ e4,
    ensureDir_of_mem ok (fs', []) _ e5]

/-- The filesystem produced by running `setup_output_dir` on an empty
filesystem with output directory `o`. -/
def sampleFS : FileSys := ⟨["o/logos", "o/images", "o/docs", "o/data", "o"]⟩

theorem setup_output_dir_idempotent_witness :
    "o" ∈ sampleFS.dirs ∧
    ("o" ++ "/" ++ DATASETS_PATH) ∈ sampleFS.dirs ∧
    ("o" ++ "/" ++ DOCS_PATH) ∈ sampleFS.dirs ∧
    ("o" ++ "/" ++ IMAGES_PATH) ∈ sampleFS.dirs ∧
    ("o" ++ "/" ++ LOGOS_PATH) ∈ sampleFS.dirs ∧
    ("o" ∉ (FileSys.mk []).dirs) ∧
    setup_output_dir (fun _ => true) sampleFS "o" = .ok (sampleFS, []) := by
  have h := setup_output_dir_idempotent (fun _ => true) ⟨[]⟩ "o" sampleFS
    ["o", "o/data", "o/docs", "o/images", "o/logos"] rfl
  exact ⟨h.1, h.2.1, h.2.2.1, h.2.2.2.1, h.2.2.2.2.1,
    h.2.2.2.2.2.1 "o" (by decide), h.2.2.2.2.2.2⟩

/-- Lookup in a keyed collection of fetched records (`HashMap::get` keyed
by external reference). -/
def lookupAssoc {α : Type} (m : List (String × α)) (key : String) : Option α :=
  match m with
  | [] => none
  | (k, v) :: rest => if k = key then some v else lookupAssoc rest key

/-- Modelled from the spec: `collect_crunchbase_data` (module
`build/crunchbase.rs` is not under `src/`).  Per spec §4.4 it extracts the
distinct Crunchbase references of the items, fetches each one, and keeps
only the successful parses; per-reference failures are simply absent from
the result map and never fail the batch. -/
def collect_crunchbase_data (outcome : String → Option CBRecord)
    (items : List Item) : List (String × CBRecord) :=
  ((items.filterMap Item.crunchbase_url).dedup).filterMap
    fun u => (outcome u).map fun r => (u, r)

/-- Modelled from the spec: `collect_github_data` (module
`build/github.rs` is not under `src/`), the GitHub counterpart of
`collect_crunchbase_data`. -/
def collect_github_data (outcome : String → Option GHRecord)
    (items : List Item) : List (String × GHRecord) :=
  ((items.filterMap Item.repo_url).dedup).filterMap
    fun u => (outcome u).map fun r => (u, r)

/-- Modelled from the spec: `add_crunchbase_data` (module `build/data.rs`
is not under `src/`).  Per spec §4.4 step 3 it is a single-threaded pass
that attaches the collected record matching each item's reference; an item
with no matching record keeps its enrichment field unset and this is never
an error. -/
def add_crunchbase_data (items : List Item)
    (cb : List (String × CBRecord)) : List Item :=
  items.map fun it =>
    match it.crunchbase_url with
    | some u => { it with crunchbase_data := lookupAssoc cb u }
    | none => it

/-- Modelled from the spec: `add_github_data` (module `build/data.rs` is
not under `src/`), the GitHub counterpart of `add_crunchbase_data`. -/
def add_github_data (items : List Item)
    (gh : List (String × GHRecord)) : List Item :=
  items.map fun it =>
    match it.repo_url with
    | some u => { it with github_data := lookupAssoc gh u }
    | none => it

/-- `str::starts_with`, embedded as a character-list prefix test so that it
evaluates on concrete strings. -/
def strStartsWith (path pre : String) : Bool :=
  pre.data.isPrefixOf path.data

/-- `check_web_assets` (`build/mod.rs:134-144`): error out unless some
embedded web asset path starts with `assets/`. -/
def check_web_assets (webAssets : List String) : Except BuildErr Unit :=
  if !webAssets.any (fun path => strStartsWith path "assets/") then
    .error .webAssetsNotFound
  else
    .ok ()

/-- The phases of `build` (`build/mod.rs:69-130`), in the order their
awaits complete; `crunchbaseCollected`/`githubCollected` mark the two
collection fan-outs being fully drained at the `tokio::try_join!`. -/
inductive BuildEvent where
  | webAssetsChecked
  | outputDirReady
  | cacheReady
  | dataLoaded
  | settingsLoaded
  | featuredAdded
  | memberSubcategoryAdded
  | imagesReady
  | guidePrepared
  | logosPrepared
  | crunchbaseCollected
  | githubCollected
  | crunchbaseMerged
  | githubMerged
  | datasetsGenerated
  | indexRendered
  | assetsCopied
  | itemsCsvGenerated
  | projectsGenerated
deriving Repr, DecidableEq, BEq

/-- The event trace of a successful run of `build`, following the
statement order of `build/mod.rs:74-124` (the two collection fan-outs of
the `try_join!` both complete before the join returns). -/
def buildSuccessTrace : List BuildEvent :=
  [.webAssetsChecked, .outputDirReady, .cacheReady, .dataLoaded,
   .settingsLoaded, .featuredAdded, .memberSubcategoryAdded, .imagesReady,
   .guidePrepared, .logosPrepared, .crunchbaseCollected, .githubCollected,
   .crunchbaseMerged, .githubMerged, .datasetsGenerated, .indexRendered,
   .assetsCopied, .itemsCsvGenerated, .projectsGenerated]

/-- Environment of one run of `build`: the embedded web asset paths, the
filesystem, the data and settings sources, the outcome of every fallible
step, and the per-item / per-reference outcomes of the three fan-outs.
The pure per-item derivations of `add_featured_items_data` and
`add_member_subcategory` (module `build/data.rs`, not under `src/`) are
supplied as opaque item transformations per spec §4.5 phase 2. -/
structure BuildEnv where
  webAssets : List String
  createDirOk : String → Bool
  fs : FileSys
  outputDir : String
  numCpus : Nat
  cacheOk : Bool
  dataSource : Option (List Item)
  settingsOk : Bool
  featuredOk : Bool
  deriveFeatured : Item → Item
  deriveMemberSubcat : Item → Item
  imagesOk : Bool
  guideOk : Bool
  logoEnv : LogoEnv
  cbOutcome : String → Option CBRecord
  ghOutcome : String → Option GHRecord
  datasetsOk : Bool
  renderOk : Bool
  copyAssetsOk : Bool
  itemsCsvOk : Bool
  projectsOk : Bool

/-- `build` (`build/mod.rs:69-130`): the sequence of fallible phases, each
aborting the run via `?` on error, producing the final enriched items and
the event trace of the run. -/
def buildModel (env : BuildEnv) :
    Except BuildErr (List Item × List BuildEvent) :=
  match check_web_assets env.webAssets with
  | .error e => .error e
  | .ok _ =>
  match setup_output_dir env.createDirOk env.fs env.outputDir with
  | .error e => .error e
  | .ok _ =>
  if !env.cacheOk then .error .cacheError else
  match env.dataSource with
  | none => .error .dataLoadError
  | some items0 =>
  if !env.settingsOk then .error .settingsLoadError else
  if !env.featuredOk then .error .featuredDataError else
  if !env.imagesOk then .error .imagesError else
  if !env.guideOk then .error .guideError else
  match prepare_items_logos env.logoEnv
      ((items0.map env.deriveFeatured).map env.deriveMemberSubcat) with
  | .error e => .error e
  | .ok items3 =>
  if !env.datasetsOk then .error .datasetsError else
  if !env.renderOk then .error .renderError else
  if !env.copyAssetsOk then .error .copyAssetsError else
  if !env.itemsCsvOk then .error .itemsCsvError else
  if !env.projectsOk then .error .projectsError else
  .ok (add_github_data
         (add_crunchbase_data items3 (collect_crunchbase_data env.cbOutcome items3))
         (collect_github_data env.ghOutcome items3),
       buildSuccessTrace)

/-- `Result::is_ok` on the model's result. -/
def exceptOk {ε α : Type} : Except ε α → Bool
  | .ok _ => true
  | .error _ => false

/-- Success of `build` as a function of the setup/config-level outcomes
alone: the fan-out outcome functions (`logoEnv`, `cbOutcome`, `ghOutcome`)
do not appear. -/
def buildOk (env : BuildEnv) : Bool :=
  (env.webAssets.any fun path => strStartsWith path "assets/") &&
  exceptOk (setup_output_dir env.createDirOk env.fs env.outputDir) &&
  env.cacheOk && env.dataSource.isSome && env.settingsOk &&
  env.featuredOk && env.imagesOk && env.guideOk && env.datasetsOk &&
  env.renderOk && env.copyAssetsOk && env.itemsCsvOk && env.projectsOk

theorem buildModel_exceptOk (env : BuildEnv) :
    exceptOk (buildModel env) = buildOk env := by
  unfold buildModel buildOk check_web_assets
  cases hw : env.webAssets.any (fun path => strStartsWith path "assets/")
  · rfl
  · cases hs : setup_output_dir env.createDirOk env.fs env.outputDir
    · rfl
    · cases hc : env.cacheOk
      · rfl
      · cases hd : env.dataSource
        · rfl
        · cases hst : env.settingsOk
          · rfl
          · cases hf : env.featuredOk
            · rfl
            · cases him : env.imagesOk
              · rfl
              · cases hg : env.guideOk
                · rfl
                · cases hds : env.datasetsOk
                  · rfl
                  · cases hr : env.renderOk
                    · rfl
                    · cases hcp : env.copyAssetsOk
                      · rfl
                      · cases hic : env.itemsCsvOk
                        · rfl
                        · cases hp : env.projectsOk
                          · rfl
                          · rfl

/-- The enriched items a successful run of `build` produces: the loaded
items, through the auxiliary-field derivation, the logo merge, and the two
external-data merges. -/
def buildResultItems (env : BuildEnv) : List Item :=
  match env.dataSource with
  | none => []
  | some items0 =>
    match prepare_items_logos env.logoEnv
        ((items0.map env.deriveFeatured).map env.deriveMemberSubcat) with
    | .error _ => []
    | .ok items3 =>
      add_github_data
        (add_crunchbase_data items3
          (collect_crunchbase_data env.cbOutcome items3))
        (collect_github_data env.ghOutcome items3)

theorem buildModel_of_ok (env : BuildEnv) (h : buildOk env = true) :
    buildModel env = .ok (buildResultItems env, buildSuccessTrace) := by
  unfold buildOk at h
  simp only [Bool.and_eq_true] at h
  obtain ⟨⟨⟨⟨⟨⟨⟨⟨⟨⟨⟨⟨h1, h2⟩, h3⟩, h4⟩, h5⟩, h6⟩, h7⟩, h8⟩, h9⟩, h10⟩,
    h11⟩, h12⟩, h13⟩ := h
  cases hs : setup_output_dir env.createDirOk env.fs env.outputDir with
  | error e => rw [hs] at h2; exact absurd h2 (by simp [exceptOk])
  | ok st =>
  cases hd : env.dataSource with
  | none => rw [hd] at h4; exact absurd h4 (by simp)
  | some items0 =>
  unfold buildModel check_web_assets buildResultItems
  rw [h1, hs, hd, h3, h5, h6, h7, h8, h9, h10, h11, h12, h13]
  rfl

theorem buildModel_ok_trace (env : BuildEnv) (items : List Item)
    (tr : List BuildEvent) (h : buildModel env = .ok (items, tr)) :
    tr = buildSuccessTrace := by
  have hok : buildOk env = true := by
    rw [← buildModel_exceptOk, h]
    rfl
  rw [buildModel_of_ok env hok] at h
  injection h with h'
  injection h' with ha hb
  exact hb.symm

/-- Claim C6: in every successful run of `build`, the Crunchbase and the
GitHub collection fan-outs are both fully completed (at the
`tokio::try_join!`) before either merge into the items happens, and both
merges happen before the datasets are generated from the landscape
data. -/
theorem build_merges_after_collection (env : BuildEnv) (items : List Item)
    (tr : List BuildEvent) (h : buildModel env = .ok (items, tr)) :
    tr.indexOf BuildEvent.crunchbaseCollected
        < tr.indexOf BuildEvent.crunchbaseMerged ∧
    tr.indexOf BuildEvent.githubCollected
        < tr.indexOf BuildEvent.crunchbaseMerged ∧
    tr.indexOf BuildEvent.crunchbaseCollected
        < tr.indexOf BuildEvent.githubMerged ∧
    tr.indexOf BuildEvent.githubCollected
        < tr.indexOf BuildEvent.githubMerged ∧
    tr.indexOf BuildEvent.crunchbaseMerged
        < tr.indexOf BuildEvent.datasetsGenerated ∧
    tr.indexOf BuildEvent.githubMerged
        < tr.indexOf BuildEvent.datasetsGenerated := by
  rw [buildModel_ok_trace env items tr h]
  decide

/-- Claim C7: the outcomes of the three fan-outs — the per-item logo
outcomes and the per-reference Crunchbase/GitHub outcomes, failures
included — never change whether `build` succeeds: success is exactly
`buildOk`, a function of the setup/config-level outcomes alone. -/
theorem build_isolates_fanout_failures (env : BuildEnv) (le : LogoEnv)
    (cbo : String → Option CBRecord) (gho : String → Option GHRecord) :
    exceptOk (buildModel
        { env with logoEnv := le, cbOutcome := cbo, ghOutcome := gho })
      = buildOk env ∧
    exceptOk (buildModel env) = buildOk env :=
  ⟨buildModel_exceptOk _, buildModel_exceptOk env⟩

/-- Claim C8: `build` fails with the missing-web-assets error when no
embedded web asset path starts with `assets/`, and `check_web_assets`
returns `Ok` when such an asset exists. -/
theorem build_requires_web_assets (env : BuildEnv) :
    ((∀ p ∈ env.webAssets, strStartsWith p "assets/" = false) →
      buildModel env = .error .webAssetsNotFound) ∧
    ((∃ p ∈ env.webAssets, strStartsWith p "assets/" = true) →
      check_web_assets env.webAssets = .ok ()) := by
  constructor
  · intro hnone
    have hany : env.webAssets.any (fun path => strStartsWith path "assets/")
        = false := by
      rw [List.any_eq_false]
      intro p hp
      simp [hnone p hp]
    unfold buildModel check_web_assets
    rw [hany]
    rfl
  · rintro ⟨p, hp, hs⟩
    have hany : env.webAssets.any (fun path => strStartsWith path "assets/")
        = true := List.any_eq_true.mpr ⟨p, hp, hs⟩
    unfold check_web_assets
    rw [hany]
    rfl

/-- A concrete build environment in which every setup step succeeds. -/
def sampleBuildEnv : BuildEnv where
  webAssets := ["assets/index-abc.js", "index.html"]
  createDirOk := fun _ => true
  fs := ⟨[]⟩
  outputDir := "o"
  numCpus := 4
  cacheOk := true
  dataSource := some sampleItems
  settingsOk := true
  featuredOk := true
  deriveFeatured := fun it => it
  deriveMemberSubcat := fun it => it
  imagesOk := true
  guideOk := true
  logoEnv := sampleLogoEnv
  cbOutcome := fun _ => none
  ghOutcome := fun _ => none
  datasetsOk := true
  renderOk := true
  copyAssetsOk := true
  itemsCsvOk := true
  projectsOk := true

/-- The same concrete environment with no embedded asset under
`assets/`. -/
def sampleBuildEnvNoAssets : BuildEnv :=
  { sampleBuildEnv with webAssets := ["index.html"] }

theorem build_merges_after_collection_witness :
    buildSuccessTrace.indexOf BuildEvent.crunchbaseCollected
        < buildSuccessTrace.indexOf BuildEvent.crunchbaseMerged ∧
    buildSuccessTrace.indexOf BuildEvent.githubCollected
        < buildSuccessTrace.indexOf BuildEvent.crunchbaseMerged ∧
    buildSuccessTrace.indexOf BuildEvent.crunchbaseCollected
        < buildSuccessTrace.indexOf BuildEvent.githubMerged ∧
    buildSuccessTrace.indexOf BuildEvent.githubCollected
        < buildSuccessTrace.indexOf BuildEvent.githubMerged ∧
    buildSuccessTrace.indexOf BuildEvent.crunchbaseMerged
        < buildSuccessTrace.indexOf BuildEvent.datasetsGenerated ∧
    buildSuccessTrace.indexOf BuildEvent.githubMerged
        < buildSuccessTrace.indexOf BuildEvent.datasetsGenerated :=
  build_merges_after_collection sampleBuildEnv
    (buildResultItems sampleBuildEnv) buildSuccessTrace
    (buildModel_of_ok sampleBuildEnv rfl)

theorem build_requires_web_assets_witness :
    buildModel sampleBuildEnvNoAssets = .error .webAssetsNotFound ∧
    check_web_assets sampleBuildEnv.webAssets = .ok () :=
  ⟨(build_requires_web_assets sampleBuildEnvNoAssets).1 (by decide),
   (build_requires_web_assets sampleBuildEnv).2
     ⟨"assets/index-abc.js", by decide, by decide⟩⟩

end Landscape2
